import Mathlib

/-!
Shallow embedding of the multi-cluster status aggregation engine of
e9169/kopilot (`pkg/k8s/provider.go`, `pkg/k8s/collectors.go`,
`pkg/k8s/cache.go`, shared types, and `pkg/agent/tools.go`'s health
analyzer), together with theorems settling the specification claims.

Modelling conventions:
* Go `int`/`int32` counters are modelled as `Int` (no arithmetic here can
  overflow realistic 64-bit ranges, and all counts stay small).
* `time.Time`/`time.Duration` are modelled as `Int` nanosecond values; the
  current wall-clock instant is passed explicitly as `now`.
* Network I/O (client construction, the four list/discovery calls) is
  modelled by a `ClusterEnv` record holding each call's outcome as an
  `Except`/`Option` value; the Go functions are translated as pure
  functions of that environment.
* Go maps keyed by strings (`rawConfig.Contexts`, `p.clusters`, `p.cache`)
  are modelled as association lists with `assocFind` / `assocInsert`
  (assignment overwrites the existing key, otherwise appends).
-/

namespace Kopilot

/-! ### Shared data types (pkg/k8s types file) -/

/-- `ClusterInfo` (types file).  The Go field `Namespace` is called
`nspace` here because `namespace` is a Lean keyword. -/
structure ClusterInfo where
  name : String
  server : String
  context : String
  user : String
  nspace : String
  isCurrent : Bool
  isReachable : Bool
deriving Repr, DecidableEq

/-- `NodeInfo` (types file). -/
structure NodeInfo where
  name : String
  status : String
  roles : List String
  age : String
deriving Repr, DecidableEq

/-- `PodInfo` (types file): information about an unhealthy pod. -/
structure PodInfo where
  name : String
  nspace : String
  status : String
  reason : String
  restarts : Int
deriving Repr, DecidableEq

/-- `ClusterStatus` (types file).  The embedded Go `ClusterInfo` is the
`info` field; `status.IsReachable` in Go is `status.info.isReachable`
here (promoted embedded field). -/
structure ClusterStatus where
  info : ClusterInfo
  version : String
  nodeCount : Int
  healthyNodes : Int
  nodes : List NodeInfo
  namespaceList : List String
  apiServerURL : String
  error : String
  podCount : Int
  healthyPods : Int
  unhealthyPods : List PodInfo
deriving Repr, DecidableEq

/-- A `ClusterStatus` whose non-identity fields are all zero-valued, as
produced by the Go composite literal `&ClusterStatus{ClusterInfo: *clusterInfo}`. -/
def emptyStatusOf (info : ClusterInfo) : ClusterStatus :=
  { info := info, version := "", nodeCount := 0, healthyNodes := 0,
    nodes := [], namespaceList := [], apiServerURL := "", error := "",
    podCount := 0, healthyPods := 0, unhealthyPods := [] }

/-! ### Kubernetes API objects, as far as the collectors read them -/

/-- `corev1.PodPhase` values used by the code. -/
inductive PodPhase where
  | pending
  | running
  | succeeded
  | failed
  | unknown
deriving Repr, DecidableEq

/-- The string form of a phase (`string(pod.Status.Phase)`). -/
def podPhaseString : PodPhase → String
  | .pending => "Pending"
  | .running => "Running"
  | .succeeded => "Succeeded"
  | .failed => "Failed"
  | .unknown => "Unknown"

/-- The parts of `corev1.ContainerState` read by `extractPodInfo`:
`State.Waiting.Reason` and `State.Terminated.Reason` (`none` models a nil
pointer). -/
structure ContainerState where
  waitingReason : Option String
  terminatedReason : Option String
deriving Repr, DecidableEq

/-- The parts of `corev1.ContainerStatus` read by the pod collector. -/
structure ContainerStatus where
  ready : Bool
  restartCount : Int
  state : ContainerState
deriving Repr, DecidableEq

/-- The parts of `corev1.Pod` read by the pod collector. -/
structure Pod where
  name : String
  nspace : String
  phase : PodPhase
  reason : String
  containerStatuses : List ContainerStatus
deriving Repr, DecidableEq

/-! ### Pod health collector (collectors.go) -/

/-- `isPodHealthy` (collectors.go): phase gate, then the all-containers-ready
loop (which returns `false` at the first non-ready container), then the
final `return pod.Status.Phase == corev1.PodRunning`. -/
def isPodHealthy (pod : Pod) : Bool :=
  if pod.phase ≠ PodPhase.running ∧ pod.phase ≠ PodPhase.succeeded then
    false
  else if pod.containerStatuses.any (fun cs => !cs.ready) then
    false
  else
    decide (pod.phase = PodPhase.running)

/-- `extractPodInfo` (collectors.go): name/namespace/phase, summed restart
counts, and the best-effort reason fallback chain. -/
def extractPodInfo (pod : Pod) : PodInfo :=
  let restarts :=
    pod.containerStatuses.foldl (fun acc cs => acc + cs.restartCount) 0
  let reason :=
    if pod.reason ≠ "" then
      pod.reason
    else
      match pod.containerStatuses with
      | [] => ""
      | cs :: _ =>
        match cs.state.waitingReason with
        | some r => r
        | none =>
          match cs.state.terminatedReason with
          | some r => r
          | none => if !cs.ready then "ContainerNotReady" else ""
  { name := pod.name, nspace := pod.nspace,
    status := podPhaseString pod.phase, reason := reason,
    restarts := restarts }

/-- The body of `collectPodHealth`'s for-loop: count a healthy pod or
append the extracted info of an unhealthy one. -/
def podHealthStep (acc : Int × List PodInfo) (pod : Pod) : Int × List PodInfo :=
  if isPodHealthy pod then (acc.1 + 1, acc.2)
  else (acc.1, acc.2 ++ [extractPodInfo pod])

/-- `collectPodHealth` (collectors.go).  The pod list call's outcome is the
argument; on success it returns `(totalPods, healthyPods, unhealthyPods)`. -/
def collectPodHealth (podsRes : Except String (List Pod)) :
    Except String (Int × Int × List PodInfo) :=
  match podsRes with
  | .error e => .error e
  | .ok pods =>
    let r := pods.foldl podHealthStep ((0 : Int), ([] : List PodInfo))
    .ok ((pods.length : Int), r.1, r.2)

/-! ### Node and namespace collectors (collectors.go) -/

/-- `corev1.ConditionStatus` values. -/
inductive CondStatus where
  | condTrue
  | condFalse
  | condUnknown
deriving Repr, DecidableEq

/-- One entry of `node.Status.Conditions`, as far as it is read. -/
structure NodeCondition where
  condType : String
  status : CondStatus
deriving Repr, DecidableEq

/-- The parts of `corev1.Node` read by `collectNodeInfo`.  `labels` is the
key set of `node.Labels`; `age` stands for the wall-clock-dependent string
`time.Since(node.CreationTimestamp.Time).Round(time.Hour).String()`,
supplied by the environment. -/
structure K8sNode where
  name : String
  labels : List String
  conditions : List NodeCondition
  age : String
deriving Repr, DecidableEq

/-- The role-label key prefix checked by `getNodeRoles`. -/
def nodeRoleLabelKey : String := "node-role.kubernetes.io/"

/-- `getNodeRoles` (collectors.go): strip the role-label key prefix from each
matching label, drop empty roles, default to `["worker"]`. -/
def getNodeRoles (node : K8sNode) : List String :=
  let roles := node.labels.foldl
    (fun acc label =>
      if nodeRoleLabelKey.isPrefixOf label then
        let role := label.drop nodeRoleLabelKey.length
        if role ≠ "" then acc ++ [role] else acc
      else acc)
    []
  if roles = [] then ["worker"] else roles

/-- The condition loop of `collectNodeInfo`: the first condition of type
`Ready` decides the status (`break` afterwards); no `Ready` condition
leaves `Unknown`. -/
def nodeReadyStatus (conditions : List NodeCondition) : String :=
  match conditions.find? (fun c => c.condType == "Ready") with
  | none => "Unknown"
  | some c => if c.status = CondStatus.condTrue then "Ready" else "NotReady"

/-- The body of `collectNodeInfo`'s for-loop: append the built `NodeInfo`
and count the node when its status came out `Ready`. -/
def nodeInfoStep (acc : List NodeInfo × Int) (node : K8sNode) : List NodeInfo × Int :=
  let st := nodeReadyStatus node.conditions
  let ni : NodeInfo :=
    { name := node.name, status := st, roles := getNodeRoles node, age := node.age }
  (acc.1 ++ [ni], if st = "Ready" then acc.2 + 1 else acc.2)

/-- `collectNodeInfo` (collectors.go): propagate the list call's error,
otherwise return the node infos plus the healthy count. -/
def collectNodeInfo (nodesRes : Except String (List K8sNode)) :
    Except String (List NodeInfo × Int) :=
  match nodesRes with
  | .error e => .error e
  | .ok nodes => .ok (nodes.foldl nodeInfoStep (([] : List NodeInfo), (0 : Int)))

/-- `collectNamespaceList` (collectors.go): propagate the list call's error,
otherwise the namespace names (the Go loop copies `ns.Name` of each item;
the environment already supplies the name list). -/
def collectNamespaceList (nsRes : Except String (List String)) :
    Except String (List String) :=
  match nsRes with
  | .error e => .error e
  | .ok names => .ok names

/-! ### Deadlines (collectors.go constants, context.WithTimeout) -/

/-- One second in nanoseconds (`time.Second`). -/
def second : Int := 1000000000

/-- `DefaultAPITimeout` (collectors.go): `30 * time.Second`. -/
def DefaultAPITimeout : Int := 30 * second

/-- `DiscoveryTimeout` (collectors.go): `10 * time.Second`. -/
def DiscoveryTimeout : Int := 10 * second

/-- The literal `10*time.Second` passed to `context.WithTimeout` in
`GetClusterStatus` (provider.go) for the whole probe's query context. -/
def statusProbeTimeout : Int := 10 * second

/-- A cancellation context, reduced to its deadline. -/
structure Ctx where
  deadline : Option Int
deriving Repr, DecidableEq

/-- `context.WithTimeout(parent, d)` at instant `now`: deadline
`now + d`, capped by the parent's deadline when one exists. -/
def withTimeout (parent : Ctx) (now d : Int) : Ctx :=
  match parent.deadline with
  | none => { deadline := some (now + d) }
  | some pd => { deadline := some (min pd (now + d)) }

/-- `getClusterVersion` (collectors.go).  It creates `discoveryCtx` with
`DiscoveryTimeout` and then discards it (`_ = discoveryCtx`), because
`Discovery().ServerVersion()` takes no context; the discovery call itself
is therefore bounded by no deadline.  Returns the call's outcome, the
created (unused) discovery context, and the deadline actually applied to
the `ServerVersion` call — always `none`. -/
def getClusterVersion (ctx : Ctx) (now : Int)
    (versionRes : Except String String) :
    Except String String × Ctx × Option Int :=
  let discoveryCtx := withTimeout ctx now DiscoveryTimeout
  (versionRes, discoveryCtx, none)

/-! ### String-keyed maps as association lists -/

/-- Go map lookup `m[k]`. -/
def assocFind {α : Type} (m : List (String × α)) (k : String) : Option α :=
  match m with
  | [] => none
  | kv :: rest => if kv.1 = k then some kv.2 else assocFind rest k

/-- Go map assignment `m[k] = v`: overwrite the existing key, otherwise
append. -/
def assocInsert {α : Type} (m : List (String × α)) (k : String) (v : α) :
    List (String × α) :=
  match m with
  | [] => [(k, v)]
  | kv :: rest => if kv.1 = k then (k, v) :: rest else kv :: assocInsert rest k v

/-! ### Provider state and cache (types file, cache.go) -/

/-- `CachedClusterStatus` (types file). -/
structure CachedClusterStatus where
  status : ClusterStatus
  expiresAt : Int
deriving Repr, DecidableEq

/-- The mutable state of `Provider` (types file).  `kubeconfigPath` and
`rawConfig` are only read at construction / client-build time and carry no
state relevant to the claims; the mutex guards the cache map, which the
explicit state passing makes atomic here. -/
structure Provider where
  clusters : List (String × ClusterInfo)
  currentContext : String
  cache : List (String × CachedClusterStatus)
  cacheTTL : Int
deriving Repr, DecidableEq

/-- `getCachedStatus` (cache.go): `nil` on a missing entry or when
`time.Now().After(cached.ExpiresAt)` — strictly after. -/
def getCachedStatus (p : Provider) (now : Int) (contextName : String) :
    Option ClusterStatus :=
  match assocFind p.cache contextName with
  | none => none
  | some cached => if now > cached.expiresAt then none else some cached.status

/-- `cacheStatus` (cache.go): store with expiry `now + TTL`. -/
def cacheStatus (p : Provider) (now : Int) (contextName : String)
    (status : ClusterStatus) : Provider :=
  { p with
    cache := assocInsert p.cache contextName
      ({ status := status, expiresAt := now + p.cacheTTL }) }

/-- `ClearCache` (cache.go). -/
def ClearCache (p : Provider) : Provider :=
  { p with cache := [] }

/-- `SetCacheTTL` (cache.go). -/
def SetCacheTTL (p : Provider) (ttl : Int) : Provider :=
  { p with cacheTTL := ttl }

/-! ### Probe environment (the network, as the code reads it) -/

/-- The outcomes of the per-context network interactions during one
`GetClusterStatus` probe.  `clientConfigRes` carries `restConfig.Host`
on success; the version/list results are the raw API call outcomes. -/
structure ClusterEnv where
  clientConfigRes : Except String String
  clientsetErr : Option String
  versionRes : Except String String
  nodesRes : Except String (List K8sNode)
  nsRes : Except String (List String)
  podsRes : Except String (List Pod)

/-- `createClientset` (provider.go): each failure point wraps the
underlying error with a fixed non-empty message; success yields the
resolved host. -/
def createClientset (env : ClusterEnv) : Except String String :=
  match env.clientConfigRes with
  | .error e => .error ("failed to create client config: " ++ e)
  | .ok host =>
    match env.clientsetErr with
    | some e => .error ("failed to create clientset: " ++ e)
    | none => .ok host

/-! ### Status assembler (provider.go GetClusterStatus) -/

/-- Which stages of one `GetClusterStatus` invocation actually ran. -/
structure ProbeTrace where
  probedClient : Bool
  versionCalled : Bool
  nodesCalled : Bool
  namespacesCalled : Bool
  podsCalled : Bool
deriving Repr, DecidableEq

/-- The trace of a call that never probed (cache hit / unknown context). -/
def noProbe : ProbeTrace :=
  { probedClient := false, versionCalled := false, nodesCalled := false,
    namespacesCalled := false, podsCalled := false }

/-- Result of one `GetClusterStatus` call: the Go `(status, err)` pair as
an `Except`, the provider state after the call, and the probe trace. -/
structure StatusResult where
  result : Except String ClusterStatus
  provider : Provider
  trace : ProbeTrace

/-- `GetClusterByContext` (provider.go). -/
def GetClusterByContext (p : Provider) (contextName : String) :
    Except String ClusterInfo :=
  match assocFind p.clusters contextName with
  | none => .error ("cluster context \"" ++ contextName ++ "\" not found")
  | some cluster => .ok cluster

/-- `GetClusterStatus` (provider.go): cache check, context lookup, client
construction, version gate under `queryCtx`, node collection (whose
failure returns early), then namespace and pod collection whose failures
are swallowed, and finally `cacheStatus` on the fully populated status. -/
def GetClusterStatus (p : Provider) (ctx : Ctx) (now : Int)
    (env : ClusterEnv) (contextName : String) : StatusResult :=
  match getCachedStatus p now contextName with
  | some cached => { result := .ok cached, provider := p, trace := noProbe }
  | none =>
    match GetClusterByContext p contextName with
    | .error e => { result := .error e, provider := p, trace := noProbe }
    | .ok clusterInfo =>
      let status0 := emptyStatusOf clusterInfo
      match createClientset env with
      | .error e =>
        { result := .ok { status0 with error := e }, provider := p,
          trace := { noProbe with probedClient := true } }
      | .ok host =>
        let queryCtx := withTimeout ctx now statusProbeTimeout
        match (getClusterVersion queryCtx now env.versionRes).1 with
        | .error e =>
          { result := .ok { status0 with
              error := "Failed to reach cluster: " ++ e,
              info := { status0.info with isReachable := false } },
            provider := p,
            trace := { probedClient := true, versionCalled := true,
                       nodesCalled := false, namespacesCalled := false,
                       podsCalled := false } }
        | .ok version =>
          let status1 := { status0 with
            version := version,
            info := { status0.info with isReachable := true },
            apiServerURL := host }
          match collectNodeInfo env.nodesRes with
          | .error e =>
            { result := .ok { status1 with error := "Failed to list nodes: " ++ e },
              provider := p,
              trace := { probedClient := true, versionCalled := true,
                         nodesCalled := true, namespacesCalled := false,
                         podsCalled := false } }
          | .ok nodeData =>
            let status2 := { status1 with
              nodes := nodeData.1,
              nodeCount := (nodeData.1.length : Int),
              healthyNodes := nodeData.2 }
            let status3 :=
              match collectNamespaceList env.nsRes with
              | .ok namespaceList => { status2 with namespaceList := namespaceList }
              | .error _ => status2
            let status4 :=
              match collectPodHealth env.podsRes with
              | .ok podData =>
                { status3 with
                  podCount := podData.1
                  healthyPods := podData.2.1
                  unhealthyPods := podData.2.2 }
              | .error _ => status3
            { result := .ok status4,
              provider := cacheStatus p now contextName status4,
              trace := { probedClient := true, versionCalled := true,
                         nodesCalled := true, namespacesCalled := true,
                         podsCalled := true } }

/-! ### Parallel aggregator (provider.go GetAllClusterStatuses) -/

/-- `GetClusters` (provider.go): the values of the cluster map (Go map
iteration order is arbitrary; the association list's order stands for the
one the iteration happened to produce). -/
def GetClusters (p : Provider) : List ClusterInfo :=
  p.clusters.map (fun kv => kv.2)

/-- The synthetic status built in `GetAllClusterStatuses` when
`GetClusterStatus` returns an error value: only `Context`, `Name`,
`IsReachable=false` and `Error` are set. -/
def syntheticErrorStatus (contextName e : String) : ClusterStatus :=
  { emptyStatusOf
      { name := contextName, server := "", context := contextName, user := "",
        nspace := "", isCurrent := false, isReachable := false }
    with error := e }

/-- `GetAllClusterStatuses` (provider.go).  The goroutine fan-out writes
slot `idx` of a pre-sized slice from `clusters[idx]`'s call result alone,
so the fan-in is embedded as a positional map; `probe` abstracts one
`p.GetClusterStatus` call's outcome for a context (the shared cache makes
the per-call outcome depend on interleaving, which `probe` quantifies
over). -/
def GetAllClusterStatuses (contexts : List ClusterInfo)
    (probe : String → Except String ClusterStatus) : List ClusterStatus :=
  contexts.map (fun cluster =>
    match probe cluster.context with
    | .ok status => status
    | .error e => syntheticErrorStatus cluster.context e)

/-! ### Configuration loader (provider.go NewProvider) and context switch -/

/-- The parts of `clientcmdapi.Context` read by `NewProvider`. -/
structure RawContext where
  cluster : String
  authInfo : String
  nspace : String
deriving Repr, DecidableEq

/-- The parts of `clientcmdapi.Cluster` read by `NewProvider`. -/
structure RawCluster where
  server : String
deriving Repr, DecidableEq

/-- The parts of the parsed kubeconfig (`clientcmdapi.Config`) read by
`NewProvider`.  Go map key sets are unique; theorems that need it take the
uniqueness of `contexts`' keys as a hypothesis. -/
structure RawConfig where
  contexts : List (String × RawContext)
  clusters : List (String × RawCluster)
  currentContext : String

/-- The `ClusterInfo` literal built per context in `NewProvider`. -/
def buildClusterInfo (currentContext contextName : String)
    (contextInfo : RawContext) (cluster : RawCluster) : ClusterInfo :=
  { name := contextInfo.cluster, server := cluster.server,
    context := contextName, user := contextInfo.authInfo,
    nspace := contextInfo.nspace,
    isCurrent := decide (contextName = currentContext),
    isReachable := false }

/-- The body of `NewProvider`'s context loop: skip a context whose cluster
reference does not resolve, otherwise store its entry. -/
def addContext (clustersCfg : List (String × RawCluster)) (currentContext : String)
    (acc : List (String × ClusterInfo)) (kv : String × RawContext) :
    List (String × ClusterInfo) :=
  match assocFind clustersCfg kv.2.cluster with
  | none => acc
  | some cluster =>
    assocInsert acc kv.1 (buildClusterInfo currentContext kv.1 kv.2 cluster)

/-- `1 * time.Minute`, the default cache TTL set in `NewProvider`. -/
def defaultCacheTTL : Int := 60 * second

/-- `NewProvider` (provider.go).  `loadRes` is the outcome of
`clientcmd.LoadFromFile`; a load failure is wrapped and propagated, any
parseable configuration succeeds. -/
def NewProvider (loadRes : Except String RawConfig) : Except String Provider :=
  match loadRes with
  | .error e => .error ("failed to load kubeconfig: " ++ e)
  | .ok rawConfig =>
    let clusters := rawConfig.contexts.foldl
      (addContext rawConfig.clusters rawConfig.currentContext) []
    .ok { clusters := clusters, currentContext := rawConfig.currentContext,
          cache := [], cacheTTL := defaultCacheTTL }

/-- `GetCurrentContext` (provider.go). -/
def GetCurrentContext (p : Provider) : String :=
  p.currentContext

/-- `SetCurrentContext` (provider.go): reject an unknown context, else
store it and rewrite every entry's `IsCurrent` flag in place. -/
def SetCurrentContext (p : Provider) (contextName : String) :
    Except String Unit × Provider :=
  match assocFind p.clusters contextName with
  | none => (.error ("cluster context \"" ++ contextName ++ "\" not found"), p)
  | some _ =>
    (.ok (), { p with
      currentContext := contextName,
      clusters := p.clusters.map (fun kv =>
        (kv.1, { kv.2 with isCurrent := decide (kv.2.context = contextName) })) })

/-! ### Health analyzer (pkg/agent/tools.go) -/

/-- `clusterHealthSummary` (tools.go). -/
structure clusterHealthSummary where
  reachableCount : Int
  healthyCount : Int
  totalUnhealthyPods : Int
  issues : List String
deriving Repr, DecidableEq

/-- The node-health issue line
`fmt.Sprintf("⚠️  %s: %d/%d nodes healthy", ...)`. -/
def nodeHealthIssue (context : String) (healthy total : Int) : String :=
  "⚠️  " ++ context ++ ": " ++ toString healthy ++ "/" ++ toString total
    ++ " nodes healthy"

/-- The pod-health issue line
`fmt.Sprintf("⚠️  %s: %d/%d pods unhealthy", ...)`. -/
def podHealthIssue (context : String) (unhealthy total : Int) : String :=
  "⚠️  " ++ context ++ ": " ++ toString unhealthy ++ "/" ++ toString total
    ++ " pods unhealthy"

/-- The unreachable issue line
`fmt.Sprintf("❌ %s: UNREACHABLE - %s", ...)`. -/
def unreachableIssue (context e : String) : String :=
  "❌ " ++ context ++ ": UNREACHABLE - " ++ e

/-- `processReachableCluster` (tools.go): bump the reachable count, emit a
node issue and/or a pod issue (the pod branch also adds
`PodCount - HealthyPods` to the fleet-wide unhealthy-pod counter), and
count the cluster fully healthy when neither branch fired and it has
nodes. -/
def processReachableCluster (status : ClusterStatus)
    (summary : clusterHealthSummary) : clusterHealthSummary :=
  let s1 := { summary with reachableCount := summary.reachableCount + 1 }
  let s2 :=
    if status.healthyNodes < status.nodeCount ∧ status.nodeCount > 0 then
      { s1 with issues := s1.issues ++
          [nodeHealthIssue status.info.context status.healthyNodes status.nodeCount] }
    else s1
  let s3 :=
    if status.healthyPods < status.podCount ∧ status.podCount > 0 then
      { s2 with
        totalUnhealthyPods := s2.totalUnhealthyPods + (status.podCount - status.healthyPods)
        issues := s2.issues ++
          [podHealthIssue status.info.context (status.podCount - status.healthyPods) status.podCount] }
    else s2
  let hasIssues :=
    (status.healthyNodes < status.nodeCount ∧ status.nodeCount > 0) ∨
    (status.healthyPods < status.podCount ∧ status.podCount > 0)
  if ¬ hasIssues ∧ status.nodeCount > 0 then
    { s3 with healthyCount := s3.healthyCount + 1 }
  else s3

/-- `analyzeClusterHealth` (tools.go): fold the statuses, routing
reachable ones through `processReachableCluster` and emitting an
unreachable issue line for the rest. -/
def analyzeClusterHealth (statuses : List ClusterStatus) : clusterHealthSummary :=
  statuses.foldl
    (fun summary status =>
      if status.info.isReachable then processReachableCluster status summary
      else { summary with issues := summary.issues ++
              [unreachableIssue status.info.context status.error] })
    { reachableCount := 0, healthyCount := 0, totalUnhealthyPods := 0, issues := [] }

/-! ### Shared helper lemmas -/

theorem assocFind_insert_self {α : Type} (m : List (String × α)) (k : String) (v : α) :
    assocFind (assocInsert m k v) k = some v := by
  induction m with
  | nil => simp [assocInsert, assocFind]
  | cons kv rest ih =>
    by_cases h : kv.1 = k
    · simp [assocInsert, assocFind, h]
    · simp [assocInsert, assocFind, h, ih]

theorem assocFind_insert_ne {α : Type} (m : List (String × α)) (k k' : String)
    (v : α) (h : k ≠ k') :
    assocFind (assocInsert m k v) k' = assocFind m k' := by
  induction m with
  | nil => simp [assocInsert, assocFind, h]
  | cons kv rest ih =>
    by_cases hk : kv.1 = k
    · simp [assocInsert, assocFind, hk, h]
    · simp [assocInsert, assocFind, hk, ih]

theorem assocFind_eq_none_of_not_mem {α : Type} (m : List (String × α)) (k : String)
    (h : k ∉ m.map Prod.fst) : assocFind m k = none := by
  induction m with
  | nil => rfl
  | cons kv rest ih =>
    simp only [List.map_cons, List.mem_cons] at h
    push_neg at h
    have hne : kv.1 ≠ k := fun he => h.1 he.symm
    simp [assocFind, hne, ih h.2]

theorem assocInsert_of_not_mem {α : Type} (m : List (String × α)) (k : String)
    (v : α) (h : k ∉ m.map Prod.fst) : assocInsert m k v = m ++ [(k, v)] := by
  induction m with
  | nil => rfl
  | cons kv rest ih =>
    simp only [List.map_cons, List.mem_cons] at h
    push_neg at h
    have hne : kv.1 ≠ k := fun he => h.1 he.symm
    simp [assocInsert, hne, ih h.2]

theorem assocFind_map_value {α β : Type} (f : α → β) (m : List (String × α)) (k : String) :
    assocFind (m.map (fun kv => (kv.1, f kv.2))) k = (assocFind m k).map f := by
  induction m with
  | nil => rfl
  | cons kv rest ih =>
    by_cases h : kv.1 = k
    · simp [assocFind, h]
    · simp [assocFind, h, ih]

theorem string_append_ne_empty_left (a b : String) (h : a ≠ "") : a ++ b ≠ "" := by
  intro hab
  apply h
  have hlen := congrArg String.length hab
  rw [String.length_append] at hlen
  have : a.length = 0 := by
    have hb : (0 : Nat) ≤ b.length := Nat.zero_le _
    simp only [String.length_empty] at hlen
    omega
  cases a with
  | mk data =>
    cases data with
    | nil => rfl
    | cons c cs => simp [String.length] at this

/-! ### Claim C4: pod health classification -/

theorem isPodHealthy_iff (pod : Pod) :
    isPodHealthy pod = true ↔
      (pod.phase = PodPhase.running ∧ ∀ cs ∈ pod.containerStatuses, cs.ready = true) := by
  unfold isPodHealthy
  cases hph : pod.phase
  case pending => simp [hph]
  case failed => simp [hph]
  case unknown => simp [hph]
  case succeeded =>
    by_cases hany : pod.containerStatuses.any (fun cs => !cs.ready) <;>
      simp [hph, hany]
  case running =>
    by_cases hany : pod.containerStatuses.any (fun cs => !cs.ready)
    · rw [List.any_eq_true] at hany
      obtain ⟨cs, hcs, hr⟩ := hany
      simp only [Bool.not_eq_true'] at hr
      constructor
      · intro h
        have hx : pod.containerStatuses.any (fun c => !c.ready) = true :=
          List.any_eq_true.mpr ⟨cs, hcs, by simp [hr]⟩
        simp [hph, hx] at h
      · intro h
        exact absurd (h.2 cs hcs) (by simp [hr])
    · have hall : ∀ cs ∈ pod.containerStatuses, cs.ready = true := by
        intro cs hcs
        by_contra hr
        apply hany
        rw [List.any_eq_true]
        exact ⟨cs, hcs, by simpa using hr⟩
      constructor
      · intro _
        exact ⟨rfl, hall⟩
      · intro _
        simp [hph, hany]

theorem podFold_spec (pods : List Pod) (a : Int × List PodInfo) :
    pods.foldl podHealthStep a =
      (a.1 + ((pods.filter (fun pod => isPodHealthy pod)).length : Int),
       a.2 ++ (pods.filter (fun pod => ! isPodHealthy pod)).map extractPodInfo) := by
  induction pods generalizing a with
  | nil => simp
  | cons pod rest ih =>
    by_cases h : isPodHealthy pod
    · rw [List.foldl_cons]
      rw [show podHealthStep a pod = (a.1 + 1, a.2) by simp [podHealthStep, h]]
      rw [ih]
      simp [List.filter_cons, h, Prod.ext_iff]
      ring
    · rw [List.foldl_cons]
      rw [show podHealthStep a pod = (a.1, a.2 ++ [extractPodInfo pod]) by
        simp [podHealthStep, h]]
      rw [ih]
      simp [List.filter_cons, h, Prod.ext_iff]

theorem filter_length_split (pods : List Pod) :
    (pods.filter (fun pod => isPodHealthy pod)).length +
      (pods.filter (fun pod => ! isPodHealthy pod)).length = pods.length := by
  induction pods with
  | nil => rfl
  | cons pod rest ih =>
    by_cases h : isPodHealthy pod <;>
      simp [List.filter_cons, h, ← ih] <;> omega

/-- **C4**: the pod-health classifier returns healthy iff the pod's phase
is Running and every container-status entry is ready (so Succeeded pods —
even with all containers ready — and Pending/Failed pods are unhealthy);
`collectPodHealth` counts the healthy pods, emits exactly one `PodInfo`
entry per unhealthy pod, and healthy count plus unhealthy-list length
equals the total pod count. -/
theorem C4_pod_health_classification :
    (∀ pod : Pod, isPodHealthy pod = true ↔
      (pod.phase = PodPhase.running ∧ ∀ cs ∈ pod.containerStatuses, cs.ready = true)) ∧
    (∀ pods : List Pod,
      collectPodHealth (.ok pods) = .ok ((pods.length : Int),
        ((pods.filter (fun pod => isPodHealthy pod)).length : Int),
        (pods.filter (fun pod => ! isPodHealthy pod)).map extractPodInfo)) ∧
    (∀ pods : List Pod,
      ((pods.filter (fun pod => isPodHealthy pod)).length : Int) +
        (((pods.filter (fun pod => ! isPodHealthy pod)).map extractPodInfo).length : Int) =
        (pods.length : Int)) := by
  refine ⟨isPodHealthy_iff, ?_, ?_⟩
  · intro pods
    simp only [collectPodHealth, podFold_spec pods ((0 : Int), ([] : List PodInfo))]
    simp
  · intro pods
    rw [List.length_map]
    have := filter_length_split pods
    push_cast [← this]
    ring

instance exceptDecEq {ε α : Type} [DecidableEq ε] [DecidableEq α] :
    DecidableEq (Except ε α)
  | .ok a, .ok b => decidable_of_iff (a = b) (by simp)
  | .error a, .error b => decidable_of_iff (a = b) (by simp)
  | .ok _, .error _ => isFalse (by simp)
  | .error _, .ok _ => isFalse (by simp)

theorem append_cons_ne {α : Type} (l : List α) (x : α) (xs : List α) :
    l ++ (x :: xs) ≠ l := by
  intro h
  have := congrArg List.length h
  simp at this

/-- A Running pod with its one container ready. -/
def c4RunningPod : Pod :=
  { name := "web", nspace := "default", phase := PodPhase.running, reason := "",
    containerStatuses := [{ ready := true, restartCount := 0, state := { waitingReason := none, terminatedReason := none } }] }

/-- A Succeeded pod whose one container reports ready. -/
def c4SucceededPod : Pod :=
  { name := "job", nspace := "default", phase := PodPhase.succeeded, reason := "",
    containerStatuses := [{ ready := true, restartCount := 0, state := { waitingReason := none, terminatedReason := none } }] }

/-- **C4 witness**: the classification evaluated on concrete pods — the
Running all-ready pod is healthy, the Succeeded all-ready pod is not, and
the collector counts them accordingly. -/
theorem C4_witness :
    isPodHealthy c4RunningPod = true ∧
    isPodHealthy c4SucceededPod = false ∧
    collectPodHealth (.ok [c4RunningPod, c4SucceededPod]) =
      .ok (2, 1, [extractPodInfo c4SucceededPod]) := by
  refine ⟨?_, by decide, ?_⟩
  · exact (C4_pod_health_classification.1 c4RunningPod).mpr ⟨rfl, by decide⟩
  · rw [C4_pod_health_classification.2.1 [c4RunningPod, c4SucceededPod]]
    decide

/-! ### Claim C8: health analyzer scenario -/

/-- Scenario cluster 1: reachable, 2/2 healthy nodes, 5/5 healthy pods. -/
def c8StatusA : ClusterStatus :=
  { emptyStatusOf
      { name := "a", server := "https://a", context := "prod-a", user := "u",
        nspace := "", isCurrent := false, isReachable := true }
    with nodeCount := 2, healthyNodes := 2, podCount := 5, healthyPods := 5 }

/-- Scenario cluster 2: reachable, 1/2 healthy nodes. -/
def c8StatusB : ClusterStatus :=
  { emptyStatusOf
      { name := "b", server := "https://b", context := "prod-b", user := "u",
        nspace := "", isCurrent := false, isReachable := true }
    with nodeCount := 2, healthyNodes := 1 }

/-- Scenario cluster 3: reachable, 3/3 nodes, 4/5 healthy pods. -/
def c8StatusC : ClusterStatus :=
  { emptyStatusOf
      { name := "c", server := "https://c", context := "prod-c", user := "u",
        nspace := "", isCurrent := false, isReachable := true }
    with nodeCount := 3, healthyNodes := 3, podCount := 5, healthyPods := 4 }

/-- Scenario cluster 4: unreachable. -/
def c8StatusD : ClusterStatus :=
  { emptyStatusOf
      { name := "d", server := "https://d", context := "prod-d", user := "u",
        nspace := "", isCurrent := false, isReachable := false }
    with error := "connection timeout" }

/-- **C8**: on the four-cluster scenario the analyzer reports 3 reachable,
1 fully healthy, 1 fleet-wide unhealthy pod, and exactly the node-health,
pod-health and unreachable issue lines in input order; and, in general, a
reachable status bumps the fully-healthy count exactly when it emitted no
issue line and has `node_count > 0`. -/
theorem C8_health_analyzer :
    analyzeClusterHealth [c8StatusA, c8StatusB, c8StatusC, c8StatusD] =
      { reachableCount := 3, healthyCount := 1, totalUnhealthyPods := 1,
        issues := [nodeHealthIssue "prod-b" 1 2, podHealthIssue "prod-c" 1 5,
                   unreachableIssue "prod-d" "connection timeout"] } ∧
    (∀ (status : ClusterStatus) (summary : clusterHealthSummary),
      (processReachableCluster status summary).healthyCount = summary.healthyCount + 1 ↔
        ((processReachableCluster status summary).issues = summary.issues ∧
          status.nodeCount > 0)) := by
  constructor
  · decide
  · intro status summary
    by_cases hA : status.healthyNodes < status.nodeCount <;>
      by_cases hB : status.nodeCount > 0 <;>
      by_cases hC : status.healthyPods < status.podCount <;>
      by_cases hD : status.podCount > 0 <;>
      simp [processReachableCluster, hA, hB, hC, hD, List.append_assoc,
        List.singleton_append, append_cons_ne]

/-- **C8 witness**: the fully-healthy criterion instantiated on the
degraded-nodes scenario cluster and the empty summary. -/
theorem C8_witness :
    (processReachableCluster c8StatusB
        { reachableCount := 0, healthyCount := 0, totalUnhealthyPods := 0,
          issues := [] }).healthyCount =
      (0 : Int) + 1 ↔
    ((processReachableCluster c8StatusB
        { reachableCount := 0, healthyCount := 0, totalUnhealthyPods := 0,
          issues := [] }).issues = [] ∧ c8StatusB.nodeCount > 0) :=
  C8_health_analyzer.2 c8StatusB
    { reachableCount := 0, healthyCount := 0, totalUnhealthyPods := 0,
      issues := [] }

/-! ### Claim C2: reachability/error/version invariant -/

/-- Concrete cluster entry for the C2 scenario. -/
def c2Info : ClusterInfo :=
  { name := "cluster-a", server := "https://a.example", context := "ctx-a",
    user := "admin", nspace := "", isCurrent := true, isReachable := false }

/-- Provider with one context and an empty cache. -/
def c2Provider : Provider :=
  { clusters := [("ctx-a", c2Info)], currentContext := "ctx-a",
    cache := [], cacheTTL := defaultCacheTTL }

/-- Environment whose version probe succeeds but whose node list call
fails. -/
def c2Env : ClusterEnv :=
  { clientConfigRes := .ok "https://a.example", clientsetErr := none,
    versionRes := .ok "v1.29.0", nodesRes := .error "nodes are forbidden",
    nsRes := .ok [], podsRes := .ok [] }

/-- **C2 counterexample**: a node-list failure after a successful version
probe produces a status with `IsReachable = true` and a non-empty `Error`
(and a non-empty `Version`), refuting the claim's restatement that
`IsReachable = true` implies an empty `Error` field. -/
theorem C2_counterexample :
    ((GetClusterStatus c2Provider { deadline := none } 0 c2Env "ctx-a").result.toOption.map
      (fun status => (status.info.isReachable, status.error, status.version))) =
      some (true, "Failed to list nodes: nodes are forbidden", "v1.29.0") := by
  decide

/-- **C2 (amended)**: for every `ClusterStatus` assembled by a fresh
(non-cached) `GetClusterStatus` probe, provided the stored cluster entry
starts unreachable (as `NewProvider` builds it) and a successful version
probe reports a non-empty version string, `IsReachable = false` holds iff
`Error` is non-empty and `Version` is empty.  (The claim's stronger
restatement — `IsReachable = true` implies empty `Error` — is refuted by
the counterexample.) -/
theorem C2_amended_reachability_invariant
    (p : Provider) (ctx : Ctx) (now : Int) (env : ClusterEnv)
    (contextName : String) (status : ClusterStatus)
    (hmiss : getCachedStatus p now contextName = none)
    (hinfo : ∀ info, assocFind p.clusters contextName = some info →
      info.isReachable = false)
    (hv : ∀ v, env.versionRes = .ok v → v ≠ "")
    (hok : (GetClusterStatus p ctx now env contextName).result = .ok status) :
    status.info.isReachable = false ↔ (status.error ≠ "" ∧ status.version = "") := by
  obtain ⟨ccr, cse, vr, nr, nsr, pr⟩ := env
  cases hfind : assocFind p.clusters contextName with
  | none =>
    simp [GetClusterStatus, hmiss, GetClusterByContext, hfind] at hok
  | some info =>
    have hreach := hinfo info hfind
    cases ccr with
    | error e =>
      simp only [GetClusterStatus, hmiss, GetClusterByContext, hfind,
        createClientset, Except.ok.injEq] at hok
      subst hok
      have hne : "failed to create client config: " ++ e ≠ "" :=
        string_append_ne_empty_left _ _ (by decide)
      simp [emptyStatusOf, hreach, hne]
    | ok host =>
      cases cse with
      | some e =>
        simp only [GetClusterStatus, hmiss, GetClusterByContext, hfind,
          createClientset, Except.ok.injEq] at hok
        subst hok
        have hne : "failed to create clientset: " ++ e ≠ "" :=
          string_append_ne_empty_left _ _ (by decide)
        simp [emptyStatusOf, hreach, hne]
      | none =>
        cases vr with
        | error e =>
          simp only [GetClusterStatus, hmiss, GetClusterByContext, hfind,
            createClientset, getClusterVersion, Except.ok.injEq] at hok
          subst hok
          have hne : "Failed to reach cluster: " ++ e ≠ "" :=
            string_append_ne_empty_left _ _ (by decide)
          simp [emptyStatusOf, hne]
        | ok v =>
          have hvne : v ≠ "" := hv v rfl
          cases nr with
          | error e =>
            simp only [GetClusterStatus, hmiss, GetClusterByContext, hfind,
              createClientset, getClusterVersion, collectNodeInfo,
              Except.ok.injEq] at hok
            subst hok
            simp [emptyStatusOf, hvne]
          | ok nodes =>
            cases nsr with
            | error e2 =>
              cases pr with
              | error e3 =>
                simp only [GetClusterStatus, hmiss, GetClusterByContext, hfind,
                  createClientset, getClusterVersion, collectNodeInfo,
                  collectNamespaceList, collectPodHealth, Except.ok.injEq] at hok
                subst hok
                simp [emptyStatusOf, hvne]
              | ok pods =>
                simp only [GetClusterStatus, hmiss, GetClusterByContext, hfind,
                  createClientset, getClusterVersion, collectNodeInfo,
                  collectNamespaceList, collectPodHealth, Except.ok.injEq] at hok
                subst hok
                simp [emptyStatusOf, hvne]
            | ok names =>
              cases pr with
              | error e3 =>
                simp only [GetClusterStatus, hmiss, GetClusterByContext, hfind,
                  createClientset, getClusterVersion, collectNodeInfo,
                  collectNamespaceList, collectPodHealth, Except.ok.injEq] at hok
                subst hok
                simp [emptyStatusOf, hvne]
              | ok pods =>
                simp only [GetClusterStatus, hmiss, GetClusterByContext, hfind,
                  createClientset, getClusterVersion, collectNodeInfo,
                  collectNamespaceList, collectPodHealth, Except.ok.injEq] at hok
                subst hok
                simp [emptyStatusOf, hvne]

/-- The status the C2 scenario's probe assembles. -/
def c2NodeFailStatus : ClusterStatus :=
  { emptyStatusOf c2Info with
    version := "v1.29.0"
    info := { c2Info with isReachable := true }
    apiServerURL := "https://a.example"
    error := "Failed to list nodes: nodes are forbidden" }

/-- **C2 witness**: the amended invariant instantiated on the concrete
node-failure scenario. -/
theorem C2_witness :
    (GetClusterStatus c2Provider { deadline := none } 0 c2Env "ctx-a").result =
      .ok c2NodeFailStatus ∧
    (c2NodeFailStatus.info.isReachable = false ↔
      (c2NodeFailStatus.error ≠ "" ∧ c2NodeFailStatus.version = "")) := by
  refine ⟨by decide, ?_⟩
  exact C2_amended_reachability_invariant c2Provider { deadline := none } 0 c2Env
    "ctx-a" c2NodeFailStatus (by decide)
    (by intro info h; simp [c2Provider, assocFind] at h; subst h; decide)
    (by intro v h; simp [c2Env] at h; subst h; decide)
    (by decide)

/-! ### Claim C3: asymmetric collector failure handling -/

/-- The trace of a call that ran the whole assembly. -/
def fullProbe : ProbeTrace :=
  { probedClient := true, versionCalled := true, nodesCalled := true,
    namespacesCalled := true, podsCalled := true }

/-- **C3**: after a successful version probe, a node-list failure returns
early with `IsReachable = true`, a non-empty error, zero node fields and
without invoking the namespace/pod collectors; a namespace-list or
pod-list failure is swallowed — the corresponding fields stay zero, the
error stays empty, and assembly runs to completion (the status is
cached). -/
theorem C3_collector_failure_asymmetry
    (p : Provider) (ctx : Ctx) (now : Int) (env : ClusterEnv)
    (contextName : String) (info : ClusterInfo) (host v : String)
    (hmiss : getCachedStatus p now contextName = none)
    (hfind : assocFind p.clusters contextName = some info)
    (hcc : env.clientConfigRes = .ok host) (hcs : env.clientsetErr = none)
    (hv : env.versionRes = .ok v) :
    (∀ e, env.nodesRes = .error e →
      ∃ status, (GetClusterStatus p ctx now env contextName).result = .ok status ∧
        status.info.isReachable = true ∧
        status.error = "Failed to list nodes: " ++ e ∧ status.error ≠ "" ∧
        status.nodeCount = 0 ∧ status.healthyNodes = 0 ∧ status.nodes = [] ∧
        (GetClusterStatus p ctx now env contextName).trace.namespacesCalled = false ∧
        (GetClusterStatus p ctx now env contextName).trace.podsCalled = false) ∧
    (∀ nodes e, env.nodesRes = .ok nodes → env.nsRes = .error e →
      ∃ status, (GetClusterStatus p ctx now env contextName).result = .ok status ∧
        status.namespaceList = [] ∧ status.error = "" ∧
        (GetClusterStatus p ctx now env contextName).trace = fullProbe ∧
        (GetClusterStatus p ctx now env contextName).provider =
          cacheStatus p now contextName status) ∧
    (∀ nodes e, env.nodesRes = .ok nodes → env.podsRes = .error e →
      ∃ status, (GetClusterStatus p ctx now env contextName).result = .ok status ∧
        status.podCount = 0 ∧ status.healthyPods = 0 ∧ status.unhealthyPods = [] ∧
        status.error = "" ∧
        (GetClusterStatus p ctx now env contextName).trace = fullProbe ∧
        (GetClusterStatus p ctx now env contextName).provider =
          cacheStatus p now contextName status) := by
  obtain ⟨ccr, cse, vr, nr, nsr, pr⟩ := env
  simp only at hcc hcs hv
  subst hcc hcs hv
  refine ⟨?_, ?_, ?_⟩
  · intro e hn
    simp only at hn
    subst hn
    have hGet : GetClusterStatus p ctx now
        ⟨.ok host, none, .ok v, .error e, nsr, pr⟩ contextName =
        { result := .ok { emptyStatusOf info with
            version := v
            info := { info with isReachable := true }
            apiServerURL := host
            error := "Failed to list nodes: " ++ e },
          provider := p,
          trace := { probedClient := true, versionCalled := true,
                     nodesCalled := true, namespacesCalled := false,
                     podsCalled := false } } := by
      simp [GetClusterStatus, hmiss, GetClusterByContext, hfind, createClientset,
        getClusterVersion, collectNodeInfo, emptyStatusOf]
    rw [hGet]
    exact ⟨_, rfl, rfl, rfl,
      string_append_ne_empty_left "Failed to list nodes: " e (by decide),
      rfl, rfl, rfl, rfl, rfl⟩
  · intro nodes e hn hns
    simp only at hn hns
    subst hn hns
    cases pr with
    | error e3 =>
      have hGet : GetClusterStatus p ctx now
          ⟨.ok host, none, .ok v, .ok nodes, .error e, .error e3⟩ contextName =
          { result := .ok { emptyStatusOf info with
              version := v
              info := { info with isReachable := true }
              apiServerURL := host
              nodes := (nodes.foldl nodeInfoStep ([], 0)).1
              nodeCount := ((nodes.foldl nodeInfoStep ([], 0)).1.length : Int)
              healthyNodes := (nodes.foldl nodeInfoStep ([], 0)).2 },
            provider := cacheStatus p now contextName
              { emptyStatusOf info with
                version := v
                info := { info with isReachable := true }
                apiServerURL := host
                nodes := (nodes.foldl nodeInfoStep ([], 0)).1
                nodeCount := ((nodes.foldl nodeInfoStep ([], 0)).1.length : Int)
                healthyNodes := (nodes.foldl nodeInfoStep ([], 0)).2 },
            trace := fullProbe } := by
        simp [GetClusterStatus, hmiss, GetClusterByContext, hfind, createClientset,
          getClusterVersion, collectNodeInfo, collectNamespaceList,
          collectPodHealth, emptyStatusOf, fullProbe]
      rw [hGet]
      exact ⟨_, rfl, rfl, rfl, rfl, rfl⟩
    | ok pods =>
      have hGet : GetClusterStatus p ctx now
          ⟨.ok host, none, .ok v, .ok nodes, .error e, .ok pods⟩ contextName =
          { result := .ok { emptyStatusOf info with
              version := v
              info := { info with isReachable := true }
              apiServerURL := host
              nodes := (nodes.foldl nodeInfoStep ([], 0)).1
              nodeCount := ((nodes.foldl nodeInfoStep ([], 0)).1.length : Int)
              healthyNodes := (nodes.foldl nodeInfoStep ([], 0)).2
              podCount := (pods.length : Int)
              healthyPods := (pods.foldl podHealthStep (0, [])).1
              unhealthyPods := (pods.foldl podHealthStep (0, [])).2 },
            provider := cacheStatus p now contextName
              { emptyStatusOf info with
                version := v
                info := { info with isReachable := true }
                apiServerURL := host
                nodes := (nodes.foldl nodeInfoStep ([], 0)).1
                nodeCount := ((nodes.foldl nodeInfoStep ([], 0)).1.length : Int)
                healthyNodes := (nodes.foldl nodeInfoStep ([], 0)).2
                podCount := (pods.length : Int)
                healthyPods := (pods.foldl podHealthStep (0, [])).1
                unhealthyPods := (pods.foldl podHealthStep (0, [])).2 },
            trace := fullProbe } := by
        simp [GetClusterStatus, hmiss, GetClusterByContext, hfind, createClientset,
          getClusterVersion, collectNodeInfo, collectNamespaceList,
          collectPodHealth, emptyStatusOf, fullProbe]
      rw [hGet]
      exact ⟨_, rfl, rfl, rfl, rfl, rfl⟩
  · intro nodes e hn hpods
    simp only at hn hpods
    subst hn hpods
    cases nsr with
    | error e2 =>
      have hGet : GetClusterStatus p ctx now
          ⟨.ok host, none, .ok v, .ok nodes, .error e2, .error e⟩ contextName =
          { result := .ok { emptyStatusOf info with
              version := v
              info := { info with isReachable := true }
              apiServerURL := host
              nodes := (nodes.foldl nodeInfoStep ([], 0)).1
              nodeCount := ((nodes.foldl nodeInfoStep ([], 0)).1.length : Int)
              healthyNodes := (nodes.foldl nodeInfoStep ([], 0)).2 },
            provider := cacheStatus p now contextName
              { emptyStatusOf info with
                version := v
                info := { info with isReachable := true }
                apiServerURL := host
                nodes := (nodes.foldl nodeInfoStep ([], 0)).1
                nodeCount := ((nodes.foldl nodeInfoStep ([], 0)).1.length : Int)
                healthyNodes := (nodes.foldl nodeInfoStep ([], 0)).2 },
            trace := fullProbe } := by
        simp [GetClusterStatus, hmiss, GetClusterByContext, hfind, createClientset,
          getClusterVersion, collectNodeInfo, collectNamespaceList,
          collectPodHealth, emptyStatusOf, fullProbe]
      rw [hGet]
      exact ⟨_, rfl, rfl, rfl, rfl, rfl, rfl, rfl⟩
    | ok names =>
      have hGet : GetClusterStatus p ctx now
          ⟨.ok host, none, .ok v, .ok nodes, .ok names, .error e⟩ contextName =
          { result := .ok { emptyStatusOf info with
              version := v
              info := { info with isReachable := true }
              apiServerURL := host
              nodes := (nodes.foldl nodeInfoStep ([], 0)).1
              nodeCount := ((nodes.foldl nodeInfoStep ([], 0)).1.length : Int)
              healthyNodes := (nodes.foldl nodeInfoStep ([], 0)).2
              namespaceList := names },
            provider := cacheStatus p now contextName
              { emptyStatusOf info with
                version := v
                info := { info with isReachable := true }
                apiServerURL := host
                nodes := (nodes.foldl nodeInfoStep ([], 0)).1
                nodeCount := ((nodes.foldl nodeInfoStep ([], 0)).1.length : Int)
                healthyNodes := (nodes.foldl nodeInfoStep ([], 0)).2
                namespaceList := names },
            trace := fullProbe } := by
        simp [GetClusterStatus, hmiss, GetClusterByContext, hfind, createClientset,
          getClusterVersion, collectNodeInfo, collectNamespaceList,
          collectPodHealth, emptyStatusOf, fullProbe]
      rw [hGet]
      exact ⟨_, rfl, rfl, rfl, rfl, rfl, rfl, rfl⟩

/-- Concrete cluster entry for the C3 scenario. -/
def c3Info : ClusterInfo :=
  { name := "cluster-a", server := "https://a.example", context := "ctx-a",
    user := "admin", nspace := "", isCurrent := true, isReachable := false }

/-- Provider with one context and an empty cache. -/
def c3Provider : Provider :=
  { clusters := [("ctx-a", c3Info)], currentContext := "ctx-a",
    cache := [], cacheTTL := defaultCacheTTL }

/-- Environment whose node list call fails after a successful version
probe. -/
def c3Env : ClusterEnv :=
  { clientConfigRes := .ok "https://a.example", clientsetErr := none,
    versionRes := .ok "v1.29.0", nodesRes := .error "boom",
    nsRes := .ok [], podsRes := .ok [] }

/-- **C3 witness**: the node-failure conjunct instantiated on the concrete
scenario. -/
theorem C3_witness :
    ∃ status,
      (GetClusterStatus c3Provider { deadline := none } 0 c3Env "ctx-a").result =
        .ok status ∧
      status.info.isReachable = true ∧
      status.error = "Failed to list nodes: " ++ "boom" ∧ status.error ≠ "" ∧
      status.nodeCount = 0 ∧ status.healthyNodes = 0 ∧ status.nodes = [] ∧
      (GetClusterStatus c3Provider { deadline := none } 0 c3Env "ctx-a").trace.namespacesCalled = false ∧
      (GetClusterStatus c3Provider { deadline := none } 0 c3Env "ctx-a").trace.podsCalled = false :=
  (C3_collector_failure_asymmetry c3Provider { deadline := none } 0 c3Env "ctx-a"
    c3Info "https://a.example" "v1.29.0" (by decide) (by decide) rfl rfl rfl).1
    "boom" rfl

/-! ### Claim C10: failure outcomes are never cached -/

theorem getCachedStatus_none_mono (p : Provider) (now now' : Int) (c : String)
    (h : getCachedStatus p now c = none) (hle : now ≤ now') :
    getCachedStatus p now' c = none := by
  unfold getCachedStatus at *
  cases hf : assocFind p.cache c with
  | none => rfl
  | some cached =>
    rw [hf] at h
    by_cases hexp : now > cached.expiresAt
    · have hexp' : now' > cached.expiresAt := by omega
      simp [hexp']
    · simp [hexp] at h

theorem probedClient_of_miss_found (p : Provider) (ctx : Ctx) (now : Int)
    (env : ClusterEnv) (c : String) (info : ClusterInfo)
    (hmiss : getCachedStatus p now c = none)
    (hfind : assocFind p.clusters c = some info) :
    (GetClusterStatus p ctx now env c).trace.probedClient = true := by
  obtain ⟨ccr, cse, vr, nr, nsr, pr⟩ := env
  cases ccr <;> cases cse <;> cases vr <;> cases nr <;>
    simp [GetClusterStatus, hmiss, GetClusterByContext, hfind, createClientset,
      getClusterVersion, collectNodeInfo, collectNamespaceList, collectPodHealth,
      noProbe, fullProbe]

/-- **C10**: when a fresh `GetClusterStatus` probe for a known context ends
in a failure terminal state (client-construction, version-probe or
node-list failure), the provider state — in particular the cache — is left
unchanged, so the failure status is never served from cache and every
subsequent call for that context performs a fresh probe. -/
theorem C10_failures_not_cached
    (p : Provider) (ctx : Ctx) (now : Int) (env : ClusterEnv)
    (contextName : String) (info : ClusterInfo)
    (hmiss : getCachedStatus p now contextName = none)
    (hfind : assocFind p.clusters contextName = some info)
    (hfail : (∃ e, createClientset env = .error e) ∨
             (∃ e, env.versionRes = .error e) ∨
             (∃ e, env.nodesRes = .error e)) :
    (GetClusterStatus p ctx now env contextName).provider = p ∧
    (∀ (ctx' : Ctx) (now' : Int) (env' : ClusterEnv), now ≤ now' →
      (GetClusterStatus (GetClusterStatus p ctx now env contextName).provider
        ctx' now' env' contextName).trace.probedClient = true) := by
  have hprov : (GetClusterStatus p ctx now env contextName).provider = p := by
    obtain ⟨ccr, cse, vr, nr, nsr, pr⟩ := env
    cases ccr with
    | error e0 =>
      simp [GetClusterStatus, hmiss, GetClusterByContext, hfind, createClientset]
    | ok host =>
      cases cse with
      | some e0 =>
        simp [GetClusterStatus, hmiss, GetClusterByContext, hfind, createClientset]
      | none =>
        cases vr with
        | error e0 =>
          simp [GetClusterStatus, hmiss, GetClusterByContext, hfind,
            createClientset, getClusterVersion]
        | ok v =>
          cases nr with
          | error e0 =>
            simp [GetClusterStatus, hmiss, GetClusterByContext, hfind,
              createClientset, getClusterVersion, collectNodeInfo]
          | ok nodes =>
            exfalso
            rcases hfail with ⟨e, he⟩ | ⟨e, he⟩ | ⟨e, he⟩ <;>
              simp [createClientset] at he
  refine ⟨hprov, ?_⟩
  intro ctx' now' env' hle
  rw [hprov]
  exact probedClient_of_miss_found p ctx' now' env' contextName info
    (getCachedStatus_none_mono p now now' contextName hmiss hle) hfind

/-- Concrete cluster entry for the C10 scenario. -/
def c10Info : ClusterInfo :=
  { name := "cluster-a", server := "https://a.example", context := "ctx-a",
    user := "admin", nspace := "", isCurrent := true, isReachable := false }

/-- Provider with one context and an empty cache. -/
def c10Provider : Provider :=
  { clusters := [("ctx-a", c10Info)], currentContext := "ctx-a",
    cache := [], cacheTTL := defaultCacheTTL }

/-- Environment whose version probe fails. -/
def c10Env : ClusterEnv :=
  { clientConfigRes := .ok "https://a.example", clientsetErr := none,
    versionRes := .error "connection refused", nodesRes := .ok [],
    nsRes := .ok [], podsRes := .ok [] }

/-- **C10 witness**: a version-probe failure leaves the provider (hence
the cache) unchanged and the next call probes again. -/
theorem C10_witness :
    (GetClusterStatus c10Provider { deadline := none } 0 c10Env "ctx-a").provider =
      c10Provider ∧
    (GetClusterStatus
      (GetClusterStatus c10Provider { deadline := none } 0 c10Env "ctx-a").provider
      { deadline := none } 1 c10Env "ctx-a").trace.probedClient = true := by
  have h := C10_failures_not_cached c10Provider { deadline := none } 0 c10Env
    "ctx-a" c10Info (by decide) (by decide)
    (Or.inr (Or.inl ⟨"connection refused", rfl⟩))
  exact ⟨h.1, h.2 { deadline := none } 1 c10Env (by decide)⟩

/-! ### Claim C5: cache idempotence -/

theorem getClusterStatus_success_exists
    (p : Provider) (ctx : Ctx) (now : Int) (env : ClusterEnv)
    (contextName : String) (info : ClusterInfo) (host v : String)
    (nodes : List K8sNode)
    (hmiss : getCachedStatus p now contextName = none)
    (hfind : assocFind p.clusters contextName = some info)
    (hcc : env.clientConfigRes = .ok host) (hcs : env.clientsetErr = none)
    (hv : env.versionRes = .ok v) (hn : env.nodesRes = .ok nodes) :
    ∃ status, (GetClusterStatus p ctx now env contextName).result = .ok status ∧
      (GetClusterStatus p ctx now env contextName).provider =
        cacheStatus p now contextName status ∧
      (GetClusterStatus p ctx now env contextName).trace = fullProbe := by
  obtain ⟨ccr, cse, vr, nr, nsr, pr⟩ := env
  simp only at hcc hcs hv hn
  subst hcc hcs hv hn
  cases nsr <;> cases pr <;>
    simp [GetClusterStatus, hmiss, GetClusterByContext, hfind, createClientset,
      getClusterVersion, collectNodeInfo, collectNamespaceList, collectPodHealth,
      fullProbe]

theorem getCachedStatus_cacheStatus_self (p : Provider) (now now' : Int)
    (c : String) (s : ClusterStatus) (h : ¬ now' > now + p.cacheTTL) :
    getCachedStatus (cacheStatus p now c s) now' c = some s := by
  unfold getCachedStatus cacheStatus
  simp [assocFind_insert_self, h]

theorem getClusterStatus_cache_hit (p : Provider) (ctx : Ctx) (now : Int)
    (env : ClusterEnv) (c : String) (s : ClusterStatus)
    (h : getCachedStatus p now c = some s) :
    GetClusterStatus p ctx now env c =
      { result := .ok s, provider := p, trace := noProbe } := by
  unfold GetClusterStatus
  rw [h]

/-- Concrete cluster entry for the C5 scenario. -/
def c5Info : ClusterInfo :=
  { name := "cluster-a", server := "https://a.example", context := "ctx-a",
    user := "admin", nspace := "", isCurrent := true, isReachable := false }

/-- Provider with one context and an empty cache. -/
def c5Provider : Provider :=
  { clusters := [("ctx-a", c5Info)], currentContext := "ctx-a",
    cache := [], cacheTTL := defaultCacheTTL }

/-- Environment whose version probe fails. -/
def c5EnvFail : ClusterEnv :=
  { clientConfigRes := .ok "https://a.example", clientsetErr := none,
    versionRes := .error "connection refused", nodesRes := .ok [],
    nsRes := .ok [], podsRes := .ok [] }

/-- Environment in which the whole probe succeeds. -/
def c5EnvOk : ClusterEnv :=
  { clientConfigRes := .ok "https://a.example", clientsetErr := none,
    versionRes := .ok "v1.29.0", nodesRes := .ok [],
    nsRes := .ok ["default"], podsRes := .ok [] }

/-- **C5 counterexample**: after a version-probe failure nothing is
cached, so a second `GetClusterStatus` call one nanosecond later — well
inside the TTL window — performs a second full probe, refuting the claim
that the underlying probe runs only once per TTL window. -/
theorem C5_counterexample :
    (GetClusterStatus c5Provider { deadline := none } 0 c5EnvFail "ctx-a").trace.probedClient = true ∧
    (GetClusterStatus c5Provider { deadline := none } 0 c5EnvFail "ctx-a").provider = c5Provider ∧
    (GetClusterStatus
      (GetClusterStatus c5Provider { deadline := none } 0 c5EnvFail "ctx-a").provider
      { deadline := none } 1 c5EnvFail "ctx-a").trace.probedClient = true := by
  decide

/-- **C5 (amended)**: when a first fresh `GetClusterStatus` probe runs the
assembly to the fully-populated terminal state (client, version and node
collection succeed), any second call for that context within the TTL
window returns exactly the cached status value, performs no probe, and
leaves the provider state unchanged — regardless of the second call's
environment. -/
theorem C5_amended_success_cache_idempotent
    (p : Provider) (ctx ctx' : Ctx) (now now' : Int) (env env' : ClusterEnv)
    (contextName : String) (info : ClusterInfo) (host v : String)
    (nodes : List K8sNode)
    (hmiss : getCachedStatus p now contextName = none)
    (hfind : assocFind p.clusters contextName = some info)
    (hcc : env.clientConfigRes = .ok host) (hcs : env.clientsetErr = none)
    (hv : env.versionRes = .ok v) (hn : env.nodesRes = .ok nodes)
    (httl : now' ≤ now + p.cacheTTL) :
    (GetClusterStatus (GetClusterStatus p ctx now env contextName).provider
        ctx' now' env' contextName).result =
      (GetClusterStatus p ctx now env contextName).result ∧
    (GetClusterStatus (GetClusterStatus p ctx now env contextName).provider
        ctx' now' env' contextName).trace = noProbe ∧
    (GetClusterStatus (GetClusterStatus p ctx now env contextName).provider
        ctx' now' env' contextName).provider =
      (GetClusterStatus p ctx now env contextName).provider := by
  obtain ⟨S, hres, hprov, htrace⟩ :=
    getClusterStatus_success_exists p ctx now env contextName info host v nodes
      hmiss hfind hcc hcs hv hn
  have hc : getCachedStatus (GetClusterStatus p ctx now env contextName).provider
      now' contextName = some S := by
    rw [hprov]
    exact getCachedStatus_cacheStatus_self p now now' contextName S (by omega)
  have hhit := getClusterStatus_cache_hit
    (GetClusterStatus p ctx now env contextName).provider ctx' now' env'
    contextName S hc
  exact ⟨by rw [hhit, hres], by rw [hhit], by rw [hhit]⟩

/-- **C5 witness**: the amended idempotence instantiated on a concrete
successful probe, with the second call 30 seconds later (TTL is one
minute). -/
theorem C5_witness :
    (GetClusterStatus
        (GetClusterStatus c5Provider { deadline := none } 0 c5EnvOk "ctx-a").provider
        { deadline := none } (30 * second) c5EnvOk "ctx-a").result =
      (GetClusterStatus c5Provider { deadline := none } 0 c5EnvOk "ctx-a").result ∧
    (GetClusterStatus
        (GetClusterStatus c5Provider { deadline := none } 0 c5EnvOk "ctx-a").provider
        { deadline := none } (30 * second) c5EnvOk "ctx-a").trace = noProbe := by
  have h := C5_amended_success_cache_idempotent c5Provider { deadline := none }
    { deadline := none } 0 (30 * second) c5EnvOk c5EnvOk "ctx-a" c5Info
    "https://a.example" "v1.29.0" [] (by decide) (by decide) rfl rfl rfl rfl
    (by decide)
  exact ⟨h.1, h.2.1⟩

/-! ### Claim C1: positional aggregation with synthetic error statuses -/

/-- **C1**: `GetAllClusterStatuses` over M configured contexts returns
exactly M statuses; slot `i` is determined by context `i` of the input
list, holding the probe's status on success and, when the probe call
returns an error value, a synthetic status with `IsReachable = false` and
`Error` equal to that error's message — so the list never shrinks however
many probes fail. -/
theorem C1_get_all_statuses (contexts : List ClusterInfo)
    (probe : String → Except String ClusterStatus) :
    (GetAllClusterStatuses contexts probe).length = contexts.length ∧
    (∀ (i : Nat) (c : ClusterInfo), contexts[i]? = some c →
      ((∀ s, probe c.context = .ok s →
          (GetAllClusterStatuses contexts probe)[i]? = some s) ∧
       (∀ e, probe c.context = .error e →
          (GetAllClusterStatuses contexts probe)[i]? =
            some (syntheticErrorStatus c.context e) ∧
          (syntheticErrorStatus c.context e).info.isReachable = false ∧
          (syntheticErrorStatus c.context e).error = e ∧
          (syntheticErrorStatus c.context e).info.context = c.context ∧
          (syntheticErrorStatus c.context e).info.name = c.context))) := by
  constructor
  · simp [GetAllClusterStatuses]
  · intro i c hc
    constructor
    · intro s hs
      unfold GetAllClusterStatuses
      rw [List.getElem?_map, hc]
      simp [hs]
    · intro e he
      refine ⟨?_, rfl, rfl, rfl, rfl⟩
      unfold GetAllClusterStatuses
      rw [List.getElem?_map, hc]
      simp [he]

/-- First configured context of the C1 scenario. -/
def c1InfoA : ClusterInfo :=
  { name := "cluster-a", server := "https://a.example", context := "ctx-a",
    user := "admin", nspace := "", isCurrent := true, isReachable := false }

/-- Second configured context of the C1 scenario. -/
def c1InfoB : ClusterInfo :=
  { name := "cluster-b", server := "https://b.example", context := "ctx-b",
    user := "admin", nspace := "", isCurrent := false, isReachable := false }

/-- The status the C1 probe returns for the first context. -/
def c1Status : ClusterStatus :=
  { emptyStatusOf { c1InfoA with isReachable := true } with
    version := "v1.29.0"
    apiServerURL := "https://a.example" }

/-- A probe outcome map: success for `ctx-a`, an error value for `ctx-b`. -/
def c1Probe : String → Except String ClusterStatus := fun c =>
  if c = "ctx-a" then .ok c1Status
  else .error "cluster context \"ctx-b\" not found"

/-- **C1 witness**: the aggregation applied to a two-context list with one
failing probe. -/
theorem C1_witness :
    (GetAllClusterStatuses [c1InfoA, c1InfoB] c1Probe).length = 2 ∧
    (GetAllClusterStatuses [c1InfoA, c1InfoB] c1Probe)[0]? = some c1Status ∧
    (GetAllClusterStatuses [c1InfoA, c1InfoB] c1Probe)[1]? =
      some (syntheticErrorStatus "ctx-b" "cluster context \"ctx-b\" not found") := by
  have h := C1_get_all_statuses [c1InfoA, c1InfoB] c1Probe
  refine ⟨by simpa using h.1, ?_, ?_⟩
  · exact (h.2 0 c1InfoA (by decide)).1 c1Status (by decide)
  · exact ((h.2 1 c1InfoB (by decide)).2
      "cluster context \"ctx-b\" not found" (by decide)).1

/-! ### Claim C9: immutability of loaded cluster entries -/

theorem getClusterStatus_clusters_invariant (p : Provider) (ctx : Ctx)
    (now : Int) (env : ClusterEnv) (c : String) :
    (GetClusterStatus p ctx now env c).provider.clusters = p.clusters := by
  obtain ⟨ccr, cse, vr, nr, nsr, pr⟩ := env
  cases h1 : getCachedStatus p now c with
  | some s => simp [GetClusterStatus, h1]
  | none =>
    cases h2 : GetClusterByContext p c with
    | error e => simp [GetClusterStatus, h1, h2]
    | ok info =>
      cases ccr <;> cases cse <;> cases vr <;> cases nr <;>
        simp [GetClusterStatus, h1, h2, createClientset, getClusterVersion,
          collectNodeInfo, cacheStatus]

/-- Entry `"a"` of the C9 provider: the current context before the switch. -/
def c9InfoA : ClusterInfo :=
  { name := "cluster-a", server := "https://a.example", context := "a",
    user := "admin", nspace := "", isCurrent := true, isReachable := false }

/-- Entry `"b"` of the C9 provider. -/
def c9InfoB : ClusterInfo :=
  { name := "cluster-b", server := "https://b.example", context := "b",
    user := "admin", nspace := "", isCurrent := false, isReachable := false }

/-- Two-context provider used for the C9 scenario. -/
def c9Provider : Provider :=
  { clusters := [("a", c9InfoA), ("b", c9InfoB)], currentContext := "a",
    cache := [], cacheTTL := defaultCacheTTL }

/-- **C9 counterexample**: `SetCurrentContext` mutates the stored entries —
after switching to `"b"`, the entry for `"a"` is no longer the value
loaded by configuration parsing (its `IsCurrent` flag flipped). -/
theorem C9_counterexample :
    assocFind (SetCurrentContext c9Provider "b").2.clusters "a" ≠
      assocFind c9Provider.clusters "a" := by
  decide

/-- **C9 (amended)**: loaded cluster entries are immutable *except for the
`IsCurrent` flag*: `SetCurrentContext` preserves the key set and changes
stored entries at most in `isCurrent`, and the status-probe, cache-clear
and TTL-setter operations never touch the cluster set at all. -/
theorem C9_amended_immutability (p : Provider) (contextName : String) :
    ((SetCurrentContext p contextName).2.clusters.map Prod.fst =
      p.clusters.map Prod.fst) ∧
    (∀ k info, assocFind p.clusters k = some info →
      ∃ b, assocFind (SetCurrentContext p contextName).2.clusters k =
        some { info with isCurrent := b }) ∧
    (∀ (ctx : Ctx) (now : Int) (env : ClusterEnv) (c : String),
      (GetClusterStatus p ctx now env c).provider.clusters = p.clusters) ∧
    (ClearCache p).clusters = p.clusters ∧
    (∀ ttl, (SetCacheTTL p ttl).clusters = p.clusters) := by
  refine ⟨?_, ?_, ?_, rfl, fun _ => rfl⟩
  · cases hf : assocFind p.clusters contextName with
    | none => simp [SetCurrentContext, hf]
    | some info0 => simp [SetCurrentContext, hf]
  · intro k info hk
    cases hf : assocFind p.clusters contextName with
    | none =>
      exact ⟨info.isCurrent, by simp [SetCurrentContext, hf, hk]⟩
    | some info0 =>
      refine ⟨decide (info.context = contextName), ?_⟩
      have h2 : assocFind
          (p.clusters.map (fun kv =>
            (kv.1, { kv.2 with isCurrent := decide (kv.2.context = contextName) }))) k =
          (assocFind p.clusters k).map
            (fun v => { v with isCurrent := decide (v.context = contextName) }) :=
        assocFind_map_value
          (fun v : ClusterInfo =>
            { v with isCurrent := decide (v.context = contextName) })
          p.clusters k
      simp only [SetCurrentContext, hf]
      rw [h2, hk]
      rfl
  · exact fun ctx now env c => getClusterStatus_clusters_invariant p ctx now env c

/-- **C9 witness**: the amended immutability instantiated on the concrete
two-context provider: the switch to `"b"` keeps the key set and changes
entry `"a"` at most in its `IsCurrent` flag. -/
theorem C9_witness :
    (SetCurrentContext c9Provider "b").2.clusters.map Prod.fst =
      c9Provider.clusters.map Prod.fst ∧
    (∃ b, assocFind (SetCurrentContext c9Provider "b").2.clusters "a" =
      some { c9InfoA with isCurrent := b }) := by
  have h := C9_amended_immutability c9Provider "b"
  exact ⟨h.1, h.2.1 "a" c9InfoA (by decide)⟩

/-! ### Claim C6: configuration loading -/

theorem foldAdd_find (cc : List (String × RawCluster)) (cur : String)
    (ctxs : List (String × RawContext)) (acc : List (String × ClusterInfo))
    (k : String) (hnd : (ctxs.map Prod.fst).Nodup) :
    assocFind (ctxs.foldl (addContext cc cur) acc) k =
      match assocFind ctxs k with
      | some rc =>
        match assocFind cc rc.cluster with
        | some cl => some (buildClusterInfo cur k rc cl)
        | none => assocFind acc k
      | none => assocFind acc k := by
  induction ctxs generalizing acc with
  | nil => simp [assocFind]
  | cons kv rest ih =>
    simp only [List.map_cons, List.nodup_cons] at hnd
    obtain ⟨hnotin, hnd'⟩ := hnd
    rw [List.foldl_cons, ih _ hnd']
    by_cases hk : kv.1 = k
    · subst hk
      have hrest : assocFind rest kv.1 = none :=
        assocFind_eq_none_of_not_mem _ _ hnotin
      rw [hrest]
      simp only [assocFind, if_pos rfl]
      unfold addContext
      cases hcl : assocFind cc kv.2.cluster with
      | none => simp [hcl]
      | some cl => simp [hcl, assocFind_insert_self]
    · simp only [assocFind, if_neg hk]
      unfold addContext
      cases hcl : assocFind cc kv.2.cluster with
      | none => rfl
      | some cl =>
        cases hrk : assocFind rest k with
        | none => simp [assocFind_insert_ne _ _ _ _ hk]
        | some rc =>
          cases assocFind cc rc.cluster <;>
            simp [assocFind_insert_ne _ _ _ _ hk]

theorem foldAdd_keys (cc : List (String × RawCluster)) (cur : String)
    (ctxs : List (String × RawContext)) (acc : List (String × ClusterInfo))
    (hnd : (ctxs.map Prod.fst).Nodup)
    (hdisj : ∀ k, k ∈ ctxs.map Prod.fst → k ∉ acc.map Prod.fst) :
    (ctxs.foldl (addContext cc cur) acc).map Prod.fst =
      acc.map Prod.fst ++
        (ctxs.filter (fun kv => (assocFind cc kv.2.cluster).isSome)).map Prod.fst := by
  induction ctxs generalizing acc with
  | nil => simp
  | cons kv rest ih =>
    simp only [List.map_cons, List.nodup_cons] at hnd
    obtain ⟨hnotin, hnd'⟩ := hnd
    rw [List.foldl_cons]
    cases hcl : assocFind cc kv.2.cluster with
    | none =>
      rw [show addContext cc cur acc kv = acc from by
        unfold addContext; rw [hcl]]
      rw [ih _ hnd' (fun k hk => hdisj k (by simp [hk]))]
      simp [List.filter_cons, hcl]
    | some cl =>
      have hacc : kv.1 ∉ acc.map Prod.fst := hdisj kv.1 (by simp)
      rw [show addContext cc cur acc kv =
          acc ++ [(kv.1, buildClusterInfo cur kv.1 kv.2 cl)] from by
        unfold addContext; rw [hcl]; exact assocInsert_of_not_mem _ _ _ hacc]
      rw [ih _ hnd' ?hdisj2]
      case hdisj2 =>
        intro k hk
        simp only [List.map_append, List.mem_append]
        push_neg
        refine ⟨hdisj k (by simp [hk]), ?_⟩
        simp only [List.map_cons, List.map_nil, List.mem_singleton]
        intro he
        exact hnotin (he ▸ hk)
      simp [List.filter_cons, hcl, List.append_assoc]

/-- **C6**: configuration loading fails only when the file load itself
fails; for every parseable configuration (Go map keys are unique), each
context whose cluster reference does not resolve is silently skipped, the
loaded set holds exactly one entry per resolvable context keyed by its
unique context name, the current-context name is surfaced, and each
entry's `IsCurrent` flag is set iff its context name equals the
current-context name. -/
theorem C6_configuration_loading (cfg : RawConfig)
    (hnd : (cfg.contexts.map Prod.fst).Nodup) :
    (∀ e, NewProvider (.error e) = .error ("failed to load kubeconfig: " ++ e)) ∧
    (∃ p, NewProvider (.ok cfg) = .ok p ∧
      p.currentContext = cfg.currentContext ∧
      (∀ k info, assocFind p.clusters k = some info ↔
        ∃ rc cl, assocFind cfg.contexts k = some rc ∧
          assocFind cfg.clusters rc.cluster = some cl ∧
          info = buildClusterInfo cfg.currentContext k rc cl) ∧
      p.clusters.map Prod.fst =
        (cfg.contexts.filter
          (fun kv => (assocFind cfg.clusters kv.2.cluster).isSome)).map Prod.fst ∧
      (p.clusters.map Prod.fst).Nodup ∧
      (∀ k info, assocFind p.clusters k = some info →
        info.isCurrent = decide (k = cfg.currentContext) ∧ info.context = k)) := by
  have hfind : ∀ k, assocFind
      (cfg.contexts.foldl (addContext cfg.clusters cfg.currentContext) []) k =
      match assocFind cfg.contexts k with
      | some rc =>
        match assocFind cfg.clusters rc.cluster with
        | some cl => some (buildClusterInfo cfg.currentContext k rc cl)
        | none => none
      | none => none := by
    intro k
    have h := foldAdd_find cfg.clusters cfg.currentContext cfg.contexts [] k hnd
    rw [h]
    cases assocFind cfg.contexts k with
    | none => rfl
    | some rc => cases assocFind cfg.clusters rc.cluster <;> rfl
  have hiff : ∀ k info, assocFind
      (cfg.contexts.foldl (addContext cfg.clusters cfg.currentContext) []) k =
        some info ↔
      ∃ rc cl, assocFind cfg.contexts k = some rc ∧
        assocFind cfg.clusters rc.cluster = some cl ∧
        info = buildClusterInfo cfg.currentContext k rc cl := by
    intro k info
    rw [hfind k]
    cases hc : assocFind cfg.contexts k with
    | none => simp
    | some rc =>
      cases hcl : assocFind cfg.clusters rc.cluster with
      | none => simp [hcl]
      | some cl => simp [hcl, eq_comm]
  have hkeys := foldAdd_keys cfg.clusters cfg.currentContext cfg.contexts []
    hnd (by simp)
  simp only [List.map_nil, List.nil_append] at hkeys
  refine ⟨fun e => rfl, _, rfl, rfl, hiff, hkeys, ?_, ?_⟩
  · rw [hkeys]
    exact hnd.sublist (List.Sublist.map Prod.fst (List.filter_sublist _))
  · intro k info hk
    obtain ⟨rc, cl, h1, h2, h3⟩ := (hiff k info).mp hk
    subst h3
    exact ⟨rfl, rfl⟩

/-- A declared context whose cluster reference resolves. -/
def c6CtxA : RawContext :=
  { cluster := "cluster-a", authInfo := "admin", nspace := "dev" }

/-- A stale declared context referencing a removed cluster. -/
def c6CtxStale : RawContext :=
  { cluster := "gone", authInfo := "admin", nspace := "" }

/-- The single cluster definition of the C6 configuration. -/
def c6ClusterA : RawCluster :=
  { server := "https://a.example" }

/-- A parseable configuration with one resolvable and one stale context. -/
def c6Cfg : RawConfig :=
  { contexts := [("ctx-a", c6CtxA), ("stale", c6CtxStale)],
    clusters := [("cluster-a", c6ClusterA)],
    currentContext := "ctx-a" }

/-- **C6 witness**: loading the concrete configuration succeeds, surfaces
the current context, keeps exactly the resolvable context, and drops the
stale one without an error. -/
theorem C6_witness :
    ∃ p, NewProvider (.ok c6Cfg) = .ok p ∧
      p.currentContext = "ctx-a" ∧
      p.clusters.map Prod.fst = ["ctx-a"] ∧
      assocFind p.clusters "stale" = none := by
  obtain ⟨-, p, hp, hcur, hiff, hkeys, -, -⟩ :=
    C6_configuration_loading c6Cfg (by decide)
  refine ⟨p, hp, hcur.trans rfl, ?_, ?_⟩
  · rw [hkeys]
    decide
  · apply assocFind_eq_none_of_not_mem
    rw [hkeys]
    decide

/-! ### Claim C7: probe deadlines -/

/-- **C7 counterexample**: the probe's query context is created with the
hardcoded 10-second literal, not the declared 30-second
`DefaultAPITimeout`; the discovery sub-context's deadline equals the
overall deadline (it is not strictly shorter, both being 10 s); and the
deadline actually applied to the `ServerVersion` call is `none` — the
discovery context is created and discarded, so it does not bound the
version discovery call. -/
theorem C7_counterexample :
    statusProbeTimeout ≠ DefaultAPITimeout ∧
    (withTimeout { deadline := none } 0 statusProbeTimeout).deadline =
      some (10 * second) ∧
    (getClusterVersion (withTimeout { deadline := none } 0 statusProbeTimeout) 0
      (.ok "v1.29.0")).2.1.deadline =
      (withTimeout { deadline := none } 0 statusProbeTimeout).deadline ∧
    (getClusterVersion (withTimeout { deadline := none } 0 statusProbeTimeout) 0
      (.ok "v1.29.0")).2.2 = none := by
  refine ⟨by decide, by decide, ?_, rfl⟩
  simp [getClusterVersion, withTimeout, statusProbeTimeout, DiscoveryTimeout]

/-- **C7 (amended)**: the status probe's overall query context carries a
10-second deadline (the hardcoded literal at provider.go:118; the declared
30-second `DefaultAPITimeout` is not used by the probe); the version probe
creates a discovery sub-context whose 10-second timeout makes its deadline
*equal to* — not strictly shorter than — the overall deadline, and that
context does not actually bound the version discovery call (it is
discarded, the underlying call takes no context); a version-probe failure
still surfaces as a reachability failure for that context only, leaving
the provider state untouched. -/
theorem C7_amended_deadlines :
    statusProbeTimeout = 10 * second ∧
    DiscoveryTimeout = 10 * second ∧
    DefaultAPITimeout = 30 * second ∧
    (∀ now : Int,
      (withTimeout { deadline := none } now statusProbeTimeout).deadline =
        some (now + statusProbeTimeout)) ∧
    (∀ (now : Int) (vres : Except String String),
      (getClusterVersion (withTimeout { deadline := none } now statusProbeTimeout)
        now vres).2.1.deadline = some (now + statusProbeTimeout) ∧
      (getClusterVersion (withTimeout { deadline := none } now statusProbeTimeout)
        now vres).2.2 = none) ∧
    (∀ (p : Provider) (ctx : Ctx) (now : Int) (env : ClusterEnv) (c : String)
        (info : ClusterInfo) (host e : String),
      getCachedStatus p now c = none →
      assocFind p.clusters c = some info →
      env.clientConfigRes = .ok host → env.clientsetErr = none →
      env.versionRes = .error e →
      (GetClusterStatus p ctx now env c).result =
        .ok { emptyStatusOf info with
          error := "Failed to reach cluster: " ++ e
          info := { info with isReachable := false } } ∧
      (GetClusterStatus p ctx now env c).provider = p) := by
  refine ⟨rfl, rfl, rfl, fun now => rfl, ?_, ?_⟩
  · intro now vres
    constructor
    · simp [getClusterVersion, withTimeout, statusProbeTimeout, DiscoveryTimeout]
    · rfl
  · intro p ctx now env c info host e hmiss hfind hcc hcs hv
    obtain ⟨ccr, cse, vr, nr, nsr, pr⟩ := env
    simp only at hcc hcs hv
    subst hcc hcs hv
    constructor <;>
      simp [GetClusterStatus, hmiss, GetClusterByContext, hfind, createClientset,
        getClusterVersion, emptyStatusOf]

/-- Concrete cluster entry for the C7 scenario. -/
def c7Info : ClusterInfo :=
  { name := "cluster-a", server := "https://a.example", context := "ctx-a",
    user := "admin", nspace := "", isCurrent := true, isReachable := false }

/-- Provider with one context and an empty cache. -/
def c7Provider : Provider :=
  { clusters := [("ctx-a", c7Info)], currentContext := "ctx-a",
    cache := [], cacheTTL := defaultCacheTTL }

/-- Environment whose version probe times out. -/
def c7Env : ClusterEnv :=
  { clientConfigRes := .ok "https://a.example", clientsetErr := none,
    versionRes := .error "context deadline exceeded", nodesRes := .ok [],
    nsRes := .ok [], podsRes := .ok [] }

/-- **C7 witness**: a deadline-exceeded version probe on the concrete
provider yields an unreachable status for that context only and leaves
the provider unchanged. -/
theorem C7_witness :
    (GetClusterStatus c7Provider { deadline := none } 0 c7Env "ctx-a").result =
      .ok { emptyStatusOf c7Info with
        error := "Failed to reach cluster: " ++ "context deadline exceeded"
        info := { c7Info with isReachable := false } } ∧
    (GetClusterStatus c7Provider { deadline := none } 0 c7Env "ctx-a").provider =
      c7Provider :=
  (C7_amended_deadlines).2.2.2.2.2 c7Provider { deadline := none } 0 c7Env
    "ctx-a" c7Info "https://a.example" "context deadline exceeded"
    (by decide) (by decide) rfl rfl rfl

end Kopilot
